import Mathlib

/-!
Shallow embedding of the persistence and query layer of the MercadoLivre
product-catalog API (src/services/dataService.ts and
src/services/productService.ts, with src/types/product.types.ts and
src/utils/ApiError.ts), together with theorems settling the spec claims.

Modelling choices:
* JS numbers carrying prices and stock are modelled as exact rationals (ℚ).
* File contents are modelled algebraically: a file is `missing`, holds
  unparseable bytes (`corruptData tag`), or holds bytes that JSON-parse to a
  product list (`goodData ps`).  `JSON.stringify` of a product list always
  yields bytes that parse back to the same list, and `fs.copyFile` copies
  bytes verbatim, corrupt or not.
* Each service operation receives the current clock value `now : ℕ`
  (milliseconds) and the current ISO timestamp `nowIso : String` as
  parameters; all `Date.now()` / `new Date().toISOString()` calls inside one
  operation observe the same instant.
* `randomUUID()` is modelled as a caller-supplied `freshId` parameter.
* `String.prototype.localeCompare` and `Date.parse` are external library
  facilities; the query function takes them as parameters
  (`localeCmp`, `dateVal`).
* Exceptions (`throw ApiError...`) are modelled with `Except`; operations
  return the post-state alongside the result, since a failed operation can
  still have refreshed the read cache.
-/

namespace ML

/-- Product record, from `ProductSchema` in src/types/product.types.ts. -/
structure Product where
  id : String
  name : String
  description : String
  price : ℚ
  category : String
  stock : ℚ
  imageUrl : Option String
  tags : List String
  isActive : Bool
  createdAt : String
  updatedAt : String
deriving DecidableEq, Repr, Inhabited

/-- Content of a file on disk: absent, unparseable bytes (tagged so distinct
corrupt contents stay distinct under byte-copies), or bytes that JSON-parse
to a product list. -/
inductive FileContent where
  | missing
  | corruptData (tag : Nat)
  | goodData (ps : List Product)
deriving DecidableEq, Repr

/-- Structured error, from the `ApiError` class in src/utils/ApiError.ts. -/
structure ApiErr where
  message : String
  statusCode : Nat
  errorCode : String
deriving DecidableEq, Repr

/-- `ApiError.badRequest` -/
def ApiErr.badRequest (message : String) : ApiErr :=
  { message := message, statusCode := 400, errorCode := "BAD_REQUEST" }

/-- `ApiError.notFound` -/
def ApiErr.notFound (message : String) : ApiErr :=
  { message := message, statusCode := 404, errorCode := "NOT_FOUND" }

/-- `ApiError.conflict` -/
def ApiErr.conflict (message : String) : ApiErr :=
  { message := message, statusCode := 409, errorCode := "CONFLICT" }

/-- `ApiError.internal` -/
def ApiErr.internal (message : String) : ApiErr :=
  { message := message, statusCode := 500, errorCode := "INTERNAL_ERROR" }

namespace DataService

/-- Mutable state of a `DataService` instance plus the two files it owns. -/
structure DataState where
  primary : FileContent
  backup : FileContent
  cache : Option (List Product)
  cacheTimestamp : Nat
deriving DecidableEq, Repr

/-- `cacheTimeout = 5 * 60 * 1000` (5 minutes, ms). -/
def cacheTimeout : Nat := 5 * 60 * 1000

/-- `isCacheValid`: cache non-null and younger than the timeout. -/
def isCacheValid (s : DataState) (now : Nat) : Bool :=
  s.cache.isSome && ((now : Int) - (s.cacheTimestamp : Int) < (cacheTimeout : Int))

/-- `writeToFile`: best-effort byte-copy of the current primary file to the
backup location when the primary exists, then overwrite the primary with the
serialized collection and refresh the cache.  (The model's file writes
succeed; the storage-failure branch throws and is not exercised by any
claim.) -/
def writeToFile (s : DataState) (ps : List Product) (now : Nat) : DataState :=
  let s1 := if s.primary ≠ FileContent.missing then { s with backup := s.primary } else s
  { s1 with
    primary := FileContent.goodData ps
    cache := some ps
    cacheTimestamp := now }

/-- `initializeEmptyData`: write an empty collection through and return it. -/
def initializeEmptyData (s : DataState) (now : Nat) : List Product × DataState :=
  ([], writeToFile s [] now)

/-- `recoverFromBackup`: if the backup exists and parses, restore it as the
new primary content (via `writeToFile`) and return it; otherwise initialize
empty data. -/
def recoverFromBackup (s : DataState) (now : Nat) : List Product × DataState :=
  match s.backup with
  | FileContent.goodData ps => (ps, writeToFile s ps now)
  | _ => initializeEmptyData s now

/-- `readFromFile`: read and parse the primary file, refreshing the cache on
success; on ENOENT initialize empty data; on any other failure (unparseable
content) attempt backup recovery. -/
def readFromFile (s : DataState) (now : Nat) : List Product × DataState :=
  match s.primary with
  | FileContent.goodData ps =>
      (ps, { s with cache := some ps, cacheTimestamp := now })
  | FileContent.missing => initializeEmptyData s now
  | FileContent.corruptData _ => recoverFromBackup s now

/-- `getAllProducts`: serve from the cache while it is valid, else read from
the file.  (On a cache hit the code returns a fresh spread copy of the cache
array; value-level this is the cached list itself — aliasing is modelled
separately in the `Alias` namespace.) -/
def getAllProducts (s : DataState) (now : Nat) : List Product × DataState :=
  if isCacheValid s now then (s.cache.getD [], s)
  else readFromFile s now

/-- `clearCache`: drop the cache so the next read hits storage. -/
def clearCache (s : DataState) : DataState :=
  { s with cache := none, cacheTimestamp := 0 }

/-- `DataService.getProductById`: linear scan of the loaded collection. -/
def getProductById (s : DataState) (now : Nat) (id : String) :
    Option Product × DataState :=
  let r := getAllProducts s now
  (r.1.find? (fun product => product.id = id), r.2)

/-- `DataService.createProduct`: reject a duplicate id, else append and
persist the whole collection. -/
def createProduct (s : DataState) (now : Nat) (product : Product) :
    Except ApiErr Product × DataState :=
  let r := getAllProducts s now
  match r.1.find? (fun p => p.id = product.id) with
  | some _ => (Except.error (ApiErr.conflict "Produto com este ID já existe"), r.2)
  | none => (Except.ok product, writeToFile r.2 (r.1 ++ [product]) now)

/-- The field-wise updates `DataService.updateProduct` may receive
(`Partial<Product>` restricted to the fields the service layer sends). -/
structure ProductUpdates where
  name : Option String
  description : Option String
  price : Option ℚ
  category : Option String
  stock : Option ℚ
  imageUrl : Option String
  tags : Option (List String)
  isActive : Option Bool
deriving DecidableEq, Repr

/-- The empty update object. -/
def ProductUpdates.none : ProductUpdates :=
  ⟨Option.none, Option.none, Option.none, Option.none, Option.none,
   Option.none, Option.none, Option.none⟩

/-- Object spread `{...existing, ...updates, id, updatedAt: now}` from
`DataService.updateProduct`: present update fields override, `id` and
`createdAt` are preserved, `updatedAt` is refreshed. -/
def mergeUpdates (existing : Product) (u : ProductUpdates) (nowIso : String) :
    Product :=
  { id := existing.id
    name := u.name.getD existing.name
    description := u.description.getD existing.description
    price := u.price.getD existing.price
    category := u.category.getD existing.category
    stock := u.stock.getD existing.stock
    imageUrl := match u.imageUrl with | some v => some v | Option.none => existing.imageUrl
    tags := u.tags.getD existing.tags
    isActive := u.isActive.getD existing.isActive
    createdAt := existing.createdAt
    updatedAt := nowIso }

/-- `DataService.updateProduct`: locate the record, merge the updates over
it in place, persist the whole collection. -/
def updateProduct (s : DataState) (now : Nat) (nowIso : String) (id : String)
    (u : ProductUpdates) : Except ApiErr Product × DataState :=
  let r := getAllProducts s now
  match r.1.findIdx? (fun p => p.id = id) with
  | Option.none => (Except.error (ApiErr.notFound "Produto não encontrado"), r.2)
  | some i =>
      let updated := mergeUpdates (r.1.getD i default) u nowIso
      (Except.ok updated, writeToFile r.2 (r.1.set i updated) now)

/-- `DataService.deleteProduct`: locate the record, splice it out, persist. -/
def deleteProduct (s : DataState) (now : Nat) (id : String) :
    Except ApiErr Unit × DataState :=
  let r := getAllProducts s now
  match r.1.findIdx? (fun p => p.id = id) with
  | Option.none => (Except.error (ApiErr.notFound "Produto não encontrado"), r.2)
  | some i => (Except.ok (), writeToFile r.2 (r.1.eraseIdx i) now)

end DataService

/-- JS `String.prototype.toLowerCase`, modelled as per-character
lowercasing. -/
def toLowerStr (s : String) : String :=
  String.mk (s.data.map Char.toLower)

/-- JS `hay.includes(pat)` on strings: substring containment (char-exact). -/
def strIncludes (hay pat : String) : Bool :=
  aux hay.toList pat.toList
where
  /-- does the first list start with the second? -/
  startsWithL : List Char → List Char → Bool
  | _, [] => true
  | [], _ :: _ => false
  | a :: as, b :: bs => a = b && startsWithL as bs
  /-- does the second list occur inside the first? -/
  aux : List Char → List Char → Bool
  | [], pat => startsWithL [] pat
  | a :: t, pat => startsWithL (a :: t) pat || aux t pat

namespace DataService

/-- Sort keys accepted by `searchProducts`. -/
inductive SortKey where
  | name
  | price
  | createdAt
deriving DecidableEq, Repr

/-- Sort directions accepted by `searchProducts`. -/
inductive SortDir where
  | asc
  | desc
deriving DecidableEq, Repr

/-- The filter object `searchProducts` receives. -/
structure SearchFilters where
  search : Option String
  category : Option String
  isActive : Option Bool
  sortBy : Option SortKey
  sortOrder : Option SortDir
  page : Option Nat
  limit : Option Nat
deriving DecidableEq, Repr

/-- The all-absent filter object. -/
def SearchFilters.none : SearchFilters :=
  ⟨Option.none, Option.none, Option.none, Option.none, Option.none,
   Option.none, Option.none⟩

/-- The comparator passed to `Array.prototype.sort` in `searchProducts`,
rendered as the "less-or-equal" test a stable sort consumes: `a` may stay
before `b` iff the comparator value is ≤ 0.  `localeCmp` models
`String.prototype.localeCompare`, `dateVal` models
`new Date(x).getTime()`. -/
def sortLe (localeCmp : String → String → Int) (dateVal : String → Int)
    (key : SortKey) (ord : Option SortDir) (a b : Product) : Bool :=
  let comparison : ℚ :=
    match key with
    | SortKey.name => (localeCmp a.name b.name : Int)
    | SortKey.price => a.price - b.price
    | SortKey.createdAt => (dateVal a.createdAt - dateVal b.createdAt : Int)
  let c := if ord = some SortDir.desc then -comparison else comparison
  c ≤ 0

/-- The filtering stage of `searchProducts`: text filter over name,
description and tags (skipped when the filter is absent or the empty string,
which is falsy in JS), case-insensitive exact category match, and
active-status match. -/
def applyFilters (f : SearchFilters) (ps : List Product) : List Product :=
  let ps := match f.search with
    | some q =>
        if q ≠ "" then
          let searchLower := toLowerStr q
          ps.filter (fun product =>
            strIncludes (toLowerStr product.name) searchLower ||
            strIncludes (toLowerStr product.description) searchLower ||
            product.tags.any (fun tag => strIncludes (toLowerStr tag) searchLower))
        else ps
    | Option.none => ps
  let ps := match f.category with
    | some c =>
        if c ≠ "" then
          ps.filter (fun product => toLowerStr product.category = toLowerStr c)
        else ps
    | Option.none => ps
  match f.isActive with
  | some b => ps.filter (fun product => product.isActive = b)
  | Option.none => ps

/-- The sorting stage of `searchProducts` (`Array.prototype.sort` is stable;
skipped when `sortBy` is absent). -/
def applySort (localeCmp : String → String → Int) (dateVal : String → Int)
    (f : SearchFilters) (ps : List Product) : List Product :=
  match f.sortBy with
  | some key => ps.mergeSort (sortLe localeCmp dateVal key f.sortOrder)
  | Option.none => ps

/-- `DataService.searchProducts`: load, filter, sort, take `total` before
pagination, then slice `[(page-1)*limit, (page-1)*limit+limit)` when both
`page` and `limit` are truthy (a 0 value is falsy in JS and skips
pagination, as does absence). -/
def searchProducts (localeCmp : String → String → Int) (dateVal : String → Int)
    (s : DataState) (now : Nat) (f : SearchFilters) :
    (List Product × Nat) × DataState :=
  let r := getAllProducts s now
  let ps := applySort localeCmp dateVal f (applyFilters f r.1)
  let total := ps.length
  let ps :=
    match f.page, f.limit with
    | some page, some limit =>
        if page ≠ 0 ∧ limit ≠ 0 then
          let startIndex := (page - 1) * limit
          ((ps.drop startIndex).take limit)
        else ps
    | _, _ => ps
  ((ps, total), r.2)

/-- Statistics record returned by `DataService.getStatistics`
(`categories` as the insertion-ordered association list the JS object
builds). -/
structure Statistics where
  total : Nat
  active : Nat
  inactive : Nat
  categories : List (String × Nat)
  averagePrice : ℚ
deriving DecidableEq, Repr

/-- One step of the `categories` accumulation:
`stats.categories[c] = (stats.categories[c] || 0) + 1`. -/
def bumpCategory (m : List (String × Nat)) (c : String) : List (String × Nat) :=
  if m.any (fun e => e.1 = c) then
    m.map (fun e => if e.1 = c then (e.1, e.2 + 1) else e)
  else m ++ [(c, 1)]

/-- `DataService.getStatistics`: full-scan counts, per-category counts, and
the mean price `Math.round((totalPrice / n) * 100) / 100` (0 for an empty
collection).  JS `Math.round` is `⌊x + 1/2⌋`, which is Mathlib's `round`. -/
def getStatistics (s : DataState) (now : Nat) : Statistics × DataState :=
  let r := getAllProducts s now
  let ps := r.1
  let totalPrice := ps.foldl (fun sum product => sum + product.price) 0
  let averagePrice : ℚ :=
    if ps.length > 0 then (round (totalPrice / (ps.length : ℚ) * 100) : ℚ) / 100
    else 0
  ({ total := ps.length
     active := (ps.filter (fun p => p.isActive)).length
     inactive := (ps.filter (fun p => !p.isActive)).length
     categories := ps.foldl (fun m product => bumpCategory m product.category) []
     averagePrice := averagePrice }, r.2)

end DataService

namespace ProductService

/-- Create-input (`CreateProductSchema`): the Product fields without `id`
and the timestamps; `tags`, `imageUrl`, `isActive` optional. -/
structure CreateProduct where
  name : String
  description : String
  price : ℚ
  category : String
  stock : ℚ
  imageUrl : Option String
  tags : Option (List String)
  isActive : Option Bool
deriving DecidableEq, Repr

/-- `ProductService.getProductById`: delegate to the data service and raise
NOT_FOUND when the id is absent. -/
def getProductById (s : DataService.DataState) (now : Nat) (id : String) :
    Except ApiErr Product × DataService.DataState :=
  let r := DataService.getProductById s now id
  match r.1 with
  | some p => (Except.ok p, r.2)
  | Option.none =>
      (Except.error (ApiErr.notFound ("Produto com ID " ++ id ++ " não encontrado")), r.2)

/-- `ProductService.validateProductName`: case-insensitive duplicate-name
scan over the whole collection, skipping the record with `excludeId` when
one is given (on create none is given, and `p.id !== undefined` always
holds). -/
def validateProductName (s : DataService.DataState) (now : Nat) (name : String)
    (excludeId : Option String) : Except ApiErr Unit × DataService.DataState :=
  let r := DataService.getAllProducts s now
  let duplicateName := r.1.find? (fun p =>
    toLowerStr p.name = toLowerStr name &&
      (match excludeId with | some e => p.id ≠ e | Option.none => true))
  match duplicateName with
  | some _ => (Except.error (ApiErr.conflict "Já existe um produto com este nome"), r.2)
  | Option.none => (Except.ok (), r.2)

/-- `ProductService.validateProductPrice`: positive and at most 999999.99. -/
def validateProductPrice (price : ℚ) : Except ApiErr Unit :=
  if price ≤ 0 then
    Except.error (ApiErr.badRequest "Preço deve ser maior que zero")
  else if price > 999999.99 then
    Except.error (ApiErr.badRequest "Preço não pode exceder R$ 999.999,99")
  else Except.ok ()

/-- `ProductService.validateProductStock`: non-negative and an integer
(`Number.isInteger` on an exact rational is "denominator 1"). -/
def validateProductStock (stock : ℚ) : Except ApiErr Unit :=
  if stock < 0 then
    Except.error (ApiErr.badRequest "Estoque não pode ser negativo")
  else if stock.den ≠ 1 then
    Except.error (ApiErr.badRequest "Estoque deve ser um número inteiro")
  else Except.ok ()

/-- `ProductService.createProduct`: run the three business validations, then
build the record — fresh id, spread of the input, `isActive` defaulted to
true and `tags` to `[]` when absent, both timestamps stamped to now — and
hand it to `DataService.createProduct`. -/
def createProduct (s : DataService.DataState) (now : Nat) (nowIso : String)
    (freshId : String) (data : CreateProduct) :
    Except ApiErr Product × DataService.DataState :=
  match validateProductName s now data.name Option.none with
  | (Except.error e, s1) => (Except.error e, s1)
  | (Except.ok _, s1) =>
    match validateProductPrice data.price with
    | Except.error e => (Except.error e, s1)
    | Except.ok _ =>
      match validateProductStock data.stock with
      | Except.error e => (Except.error e, s1)
      | Except.ok _ =>
        let product : Product :=
          { id := freshId
            name := data.name
            description := data.description
            price := data.price
            category := data.category
            stock := data.stock
            imageUrl := data.imageUrl
            isActive := data.isActive.getD true
            tags := data.tags.getD []
            createdAt := nowIso
            updatedAt := nowIso }
        DataService.createProduct s1 now product

/-- `ProductService.updateProduct`: existence check, then re-validate only
the fields present in the update (name uniqueness excluding this id, price
bounds, stock bounds), then delegate to `DataService.updateProduct` with
`updatedAt` refreshed. -/
def updateProduct (s : DataService.DataState) (now : Nat) (nowIso : String)
    (id : String) (updates : DataService.ProductUpdates) :
    Except ApiErr Product × DataService.DataState :=
  match getProductById s now id with
  | (Except.error e, s1) => (Except.error e, s1)
  | (Except.ok _, s1) =>
    match (match updates.name with
           | some n => validateProductName s1 now n (some id)
           | Option.none => (Except.ok (), s1)) with
    | (Except.error e, s2) => (Except.error e, s2)
    | (Except.ok _, s2) =>
      match (match updates.price with
             | some p => validateProductPrice p
             | Option.none => Except.ok ()) with
      | Except.error e => (Except.error e, s2)
      | Except.ok _ =>
        match (match updates.stock with
               | some st => validateProductStock st
               | Option.none => Except.ok ()) with
        | Except.error e => (Except.error e, s2)
        | Except.ok _ => DataService.updateProduct s2 now nowIso id updates

/-- Stock-adjust directions. -/
inductive StockOp where
  | add
  | subtract
deriving DecidableEq, Repr

/-- `ProductService.updateProductStock`: load the product; for `add` the new
stock is `stock + quantity`; for `subtract` it is `stock - quantity` and a
BAD_REQUEST is thrown before any mutation when it would be negative;
otherwise delegate to `updateProduct` with only the stock field. -/
def updateProductStock (s : DataService.DataState) (now : Nat) (nowIso : String)
    (id : String) (quantity : ℚ) (operation : StockOp) :
    Except ApiErr Product × DataService.DataState :=
  match getProductById s now id with
  | (Except.error e, s1) => (Except.error e, s1)
  | (Except.ok product, s1) =>
    match operation with
    | StockOp.add =>
        let newStock := product.stock + quantity
        updateProduct s1 now nowIso id
          { DataService.ProductUpdates.none with stock := some newStock }
    | StockOp.subtract =>
        let newStock := product.stock - quantity
        if newStock < 0 then
          (Except.error (ApiErr.badRequest "Estoque não pode ficar negativo"), s1)
        else
          updateProduct s1 now nowIso id
            { DataService.ProductUpdates.none with stock := some newStock }

end ProductService

/-!
Reference-level model of the same `DataService` read path, for the claims
about aliasing.  JS arrays are heap objects: the heap is a list of arrays,
an array reference is an index into it, and every syntactic array creation
(`JSON.parse`, an array literal, a spread `[...xs]`) allocates a fresh
slot.  `this.cache` stores a reference.  A caller mutating a returned
array (`push`) updates the slot its reference points to.
-/
namespace Alias

open DataService (cacheTimeout)

/-- The heap of live arrays; an array reference is an index. -/
abbrev Heap := List (List Product)

/-- Allocate a fresh array holding `xs`; returns the new heap and the
reference. -/
def alloc (h : Heap) (xs : List Product) : Heap × Nat :=
  (h ++ [xs], h.length)

/-- Dereference an array. -/
def readArr (h : Heap) (aid : Nat) : List Product :=
  h.getD aid []

/-- `DataService` instance state with the cache held by reference. -/
structure AState where
  heap : Heap
  cacheAid : Option Nat
  cacheTimestamp : Nat
  primary : FileContent
  backup : FileContent
deriving DecidableEq, Repr

/-- `isCacheValid` over the reference-level state. -/
def isCacheValidA (s : AState) (now : Nat) : Bool :=
  s.cacheAid.isSome && ((now : Int) - (s.cacheTimestamp : Int) < (cacheTimeout : Int))

/-- `writeToFile`: backup copy, overwrite primary, then
`this.cache = [...products]` — the spread allocates a fresh array. -/
def writeToFileA (s : AState) (ps : List Product) (now : Nat) : AState :=
  let s1 := if s.primary ≠ FileContent.missing then { s with backup := s.primary } else s
  let a := alloc s1.heap ps
  { s1 with
    heap := a.1
    cacheAid := some a.2
    cacheTimestamp := now
    primary := FileContent.goodData ps }

/-- `initializeEmptyData`: the local literal `[]` is one allocation; the
write-through caches a separate spread copy; the local array is returned. -/
def initializeEmptyDataA (s : AState) (now : Nat) : Nat × AState :=
  let a := alloc s.heap []
  (a.2, writeToFileA { s with heap := a.1 } [] now)

/-- `recoverFromBackup`: `JSON.parse` of the backup allocates; the restore
write caches a separate spread copy; the parsed array is returned. -/
def recoverFromBackupA (s : AState) (now : Nat) : Nat × AState :=
  match s.backup with
  | FileContent.goodData ps =>
      let a := alloc s.heap ps
      (a.2, writeToFileA { s with heap := a.1 } ps now)
  | _ => initializeEmptyDataA s now

/-- `readFromFile`: `JSON.parse` allocates one array; `this.cache` is set to
that same reference, and that same reference is returned. -/
def readFromFileA (s : AState) (now : Nat) : Nat × AState :=
  match s.primary with
  | FileContent.goodData ps =>
      let a := alloc s.heap ps
      (a.2, { s with heap := a.1, cacheAid := some a.2, cacheTimestamp := now })
  | FileContent.missing => initializeEmptyDataA s now
  | FileContent.corruptData _ => recoverFromBackupA s now

/-- `getAllProducts`: on a cache hit return a fresh spread copy
`[...this.cache]`; on a miss return whatever `readFromFile` returns. -/
def getAllProductsA (s : AState) (now : Nat) : Nat × AState :=
  if isCacheValidA s now then
    let a := alloc s.heap (readArr s.heap (s.cacheAid.getD 0))
    (a.2, { s with heap := a.1 })
  else readFromFileA s now

/-- A caller mutating a returned array in place: `arr.push(p)`. -/
def pushA (s : AState) (aid : Nat) (p : Product) : AState :=
  { s with heap := s.heap.set aid (readArr s.heap aid ++ [p]) }

end Alias

/-! Concrete fixtures used by witnesses and counterexamples. -/

/-- A demo product. -/
def demoProduct (id name : String) (price stock : ℚ) : Product :=
  { id := id
    name := name
    description := "desc"
    price := price
    category := "cat"
    stock := stock
    imageUrl := Option.none
    tags := []
    isActive := true
    createdAt := "2024-01-01T00:00:00.000Z"
    updatedAt := "2024-01-01T00:00:00.000Z" }

/-- A demo state: empty cache, a parseable primary file holding `ps`, no
backup file. -/
def demoState (ps : List Product) : DataService.DataState :=
  { primary := FileContent.goodData ps
    backup := FileContent.missing
    cache := Option.none
    cacheTimestamp := 0 }

/-! Helper lemmas about the read path. -/

/-- After any `getAllProducts`, the cache holds exactly the returned list
and is valid at the same instant. -/
theorem getAllProducts_post_cache (s : DataService.DataState) (now : Nat) :
    DataService.isCacheValid (DataService.getAllProducts s now).2 now = true ∧
    (DataService.getAllProducts s now).2.cache =
      some (DataService.getAllProducts s now).1 := by
  unfold DataService.getAllProducts
  split
  · next h =>
      refine ⟨h, ?_⟩
      rcases hc : s.cache with _ | l
      · simp [DataService.isCacheValid, hc] at h
      · simp [hc]
  · next h =>
      unfold DataService.readFromFile
      rcases hp : s.primary with _ | t | ps
      · simp only
        unfold DataService.initializeEmptyData DataService.writeToFile
        constructor
        · simp [DataService.isCacheValid, DataService.cacheTimeout]
        · split <;> simp
      · simp only
        unfold DataService.recoverFromBackup
        rcases hb : s.backup with _ | u | qs
        · simp only
          unfold DataService.initializeEmptyData DataService.writeToFile
          constructor
          · simp [DataService.isCacheValid, DataService.cacheTimeout]
          · split <;> simp
        · simp only
          unfold DataService.initializeEmptyData DataService.writeToFile
          constructor
          · simp [DataService.isCacheValid, DataService.cacheTimeout]
          · split <;> simp
        · simp only
          unfold DataService.writeToFile
          constructor
          · simp [DataService.isCacheValid, DataService.cacheTimeout]
          · split <;> simp
      · constructor
        · simp [DataService.isCacheValid, DataService.cacheTimeout]
        · simp

/-- A second read at the same instant returns the same collection and
leaves the state unchanged. -/
theorem getAllProducts_stable (s : DataService.DataState) (now : Nat) :
    DataService.getAllProducts (DataService.getAllProducts s now).2 now =
      ((DataService.getAllProducts s now).1, (DataService.getAllProducts s now).2) := by
  obtain ⟨h1, h2⟩ := getAllProducts_post_cache s now
  rw [DataService.getAllProducts, h1]
  simp [h2]

/-! Fixtures for the corruption-recovery claims. -/

/-- A product list for the recovery fixtures. -/
def backupProducts : List Product := [demoProduct "p1" "Alpha" 10 5]

/-- A state whose primary file is unparseable, whose backup parses to
`backupProducts`, and whose cache is empty. -/
def corruptState : DataService.DataState :=
  { primary := FileContent.corruptData 0
    backup := FileContent.goodData backupProducts
    cache := Option.none
    cacheTimestamp := 0 }

/-- C1: for every unparseable primary file and every valid backup file
holding the records `ps`, a cache-missing `getAllProducts` (the `loadAll`
path) returns exactly `ps`, and the primary file is overwritten with the
backup's content. -/
theorem c1_corruption_recovery (s : DataService.DataState) (now t : Nat)
    (ps : List Product)
    (hp : s.primary = FileContent.corruptData t)
    (hb : s.backup = FileContent.goodData ps)
    (hc : DataService.isCacheValid s now = false) :
    (DataService.getAllProducts s now).1 = ps ∧
    (DataService.getAllProducts s now).2.primary = FileContent.goodData ps := by
  rw [DataService.getAllProducts, hc]
  simp only [Bool.false_eq_true, if_false]
  rw [DataService.readFromFile, hp]
  rw [DataService.recoverFromBackup, hb]
  simp [DataService.writeToFile, hp]

/-- C1 witness: the concrete corrupted state with a one-record backup. -/
theorem c1_corruption_recovery_witness :
    DataService.isCacheValid corruptState 0 = false ∧
    ((DataService.getAllProducts corruptState 0).1 = backupProducts ∧
     (DataService.getAllProducts corruptState 0).2.primary =
       FileContent.goodData backupProducts) :=
  ⟨by decide, c1_corruption_recovery corruptState 0 0 backupProducts rfl rfl (by decide)⟩

/-- C2: in the same recovery scenario, the restore goes through
`writeToFile`, whose first step copies the still-corrupted primary file over
the backup file; afterwards the backup holds the corrupted bytes, not the
recovered collection — the single backup generation is consumed. -/
theorem c2_recovery_consumes_backup (s : DataService.DataState) (now t : Nat)
    (ps : List Product)
    (hp : s.primary = FileContent.corruptData t)
    (hb : s.backup = FileContent.goodData ps)
    (hc : DataService.isCacheValid s now = false) :
    (DataService.getAllProducts s now).2.backup = FileContent.corruptData t ∧
    ∀ qs : List Product,
      (DataService.getAllProducts s now).2.backup ≠ FileContent.goodData qs := by
  rw [DataService.getAllProducts, hc]
  simp only [Bool.false_eq_true, if_false]
  rw [DataService.readFromFile, hp]
  rw [DataService.recoverFromBackup, hb]
  simp [DataService.writeToFile, hp]

/-- C2 witness: the same concrete corrupted state. -/
theorem c2_recovery_consumes_backup_witness :
    DataService.isCacheValid corruptState 0 = false ∧
    ((DataService.getAllProducts corruptState 0).2.backup = FileContent.corruptData 0 ∧
     ∀ qs : List Product,
       (DataService.getAllProducts corruptState 0).2.backup ≠ FileContent.goodData qs) :=
  ⟨by decide, c2_recovery_consumes_backup corruptState 0 0 backupProducts rfl rfl (by decide)⟩

/-- C3: `writeToFile ps` followed by `clearCache` followed by
`getAllProducts` returns exactly `ps` — order and every field preserved. -/
theorem c3_persist_roundtrip (s : DataService.DataState) (ps : List Product)
    (now now2 : Nat) :
    (DataService.getAllProducts
        (DataService.clearCache (DataService.writeToFile s ps now)) now2).1 = ps := by
  rw [DataService.getAllProducts]
  have hvalid : DataService.isCacheValid
      (DataService.clearCache (DataService.writeToFile s ps now)) now2 = false := by
    simp [DataService.isCacheValid, DataService.clearCache]
  rw [hvalid]
  simp only [Bool.false_eq_true, if_false]
  rw [DataService.readFromFile]
  have hprim : (DataService.clearCache (DataService.writeToFile s ps now)).primary =
      FileContent.goodData ps := rfl
  rw [hprim]

/-! Fixtures for the stock-adjustment claims. -/

/-- A product with stock 50. -/
def stockProduct : Product := demoProduct "p1" "Alpha" 10 50

/-- A state holding only `stockProduct`, cache empty. -/
def stockState : DataService.DataState := demoState [stockProduct]

/-- When the located product's stock minus the subtract quantity is
negative, `updateProductStock` returns the BAD_REQUEST error and the
post-read state, untouched. -/
theorem updateProductStock_subtract_neg_eq (s : DataService.DataState) (now : Nat)
    (nowIso id : String) (q : ℚ) (p : Product)
    (hfind : (DataService.getAllProducts s now).1.find? (fun x => x.id = id) = some p)
    (hneg : p.stock - q < 0) :
    ProductService.updateProductStock s now nowIso id q
        ProductService.StockOp.subtract =
      (Except.error (ApiErr.badRequest "Estoque não pode ficar negativo"),
       (DataService.getAllProducts s now).2) := by
  unfold ProductService.updateProductStock ProductService.getProductById
    DataService.getProductById
  simp only [hfind, if_pos hneg]

/-- C4: a `subtract` stock adjustment that would drive the stock negative
fails, the state is exactly the post-read state (the check runs before any
mutation, so nothing is written), and the stored record — stock included —
is unchanged in a subsequent read. -/
theorem c4_subtract_insufficient_stock (s : DataService.DataState) (now : Nat)
    (nowIso id : String) (q : ℚ) (p : Product)
    (hfind : (DataService.getAllProducts s now).1.find? (fun x => x.id = id) = some p)
    (hneg : p.stock - q < 0) :
    (ProductService.updateProductStock s now nowIso id q
        ProductService.StockOp.subtract).1 =
      Except.error (ApiErr.badRequest "Estoque não pode ficar negativo") ∧
    (ProductService.updateProductStock s now nowIso id q
        ProductService.StockOp.subtract).2 = (DataService.getAllProducts s now).2 ∧
    (DataService.getAllProducts
        (ProductService.updateProductStock s now nowIso id q
          ProductService.StockOp.subtract).2 now).1.find? (fun x => x.id = id) =
      some p := by
  have hstep := updateProductStock_subtract_neg_eq s now nowIso id q p hfind hneg
  refine ⟨by rw [hstep], by rw [hstep], ?_⟩
  rw [hstep]
  have hs := getAllProducts_stable s now
  have h1 : (DataService.getAllProducts (DataService.getAllProducts s now).2 now).1 =
      (DataService.getAllProducts s now).1 := by rw [hs]
  rw [h1, hfind]

/-- C4 witness: subtracting 100 from a product holding stock 50. -/
theorem c4_subtract_insufficient_stock_witness :
    (DataService.getAllProducts stockState 0).1.find? (fun x => x.id = "p1") =
      some stockProduct ∧
    stockProduct.stock - 100 < 0 ∧
    ((ProductService.updateProductStock stockState 0 "t" "p1" 100
        ProductService.StockOp.subtract).1 =
      Except.error (ApiErr.badRequest "Estoque não pode ficar negativo") ∧
     (ProductService.updateProductStock stockState 0 "t" "p1" 100
        ProductService.StockOp.subtract).2 =
       (DataService.getAllProducts stockState 0).2 ∧
     (DataService.getAllProducts
        (ProductService.updateProductStock stockState 0 "t" "p1" 100
          ProductService.StockOp.subtract).2 0).1.find? (fun x => x.id = "p1") =
       some stockProduct) :=
  ⟨by decide, by norm_num [stockProduct, demoProduct],
   c4_subtract_insufficient_stock stockState 0 "t" "p1" 100 stockProduct
     (by decide) (by norm_num [stockProduct, demoProduct])⟩

/-- C5 counterexample: the negative-stock failure is `ApiError.badRequest`,
carrying exactly the same error code ("BAD_REQUEST") and status (400) as
the generic validation error raised for an out-of-bounds price, so the two
failure classes are not distinct. -/
theorem c5_error_class_counterexample :
    ∃ e1 e2 : ApiErr,
      (ProductService.updateProductStock stockState 0 "t" "p1" 100
          ProductService.StockOp.subtract).1 = Except.error e1 ∧
      ProductService.validateProductPrice 0 = Except.error e2 ∧
      e1.errorCode = e2.errorCode ∧ e1.statusCode = e2.statusCode := by
  refine ⟨ApiErr.badRequest "Estoque não pode ficar negativo",
          ApiErr.badRequest "Preço deve ser maior que zero", ?_, ?_, rfl, rfl⟩
  · rw [updateProductStock_subtract_neg_eq stockState 0 "t" "p1" 100 stockProduct
      (by decide) (by norm_num [stockProduct, demoProduct])]
  · simp [ProductService.validateProductPrice]

/-- C5 (amended): when a subtract adjustment would make the stock negative,
`updateProductStock` fails with `ApiError.badRequest` — error code
"BAD_REQUEST", status 400 — which is the same error class and code as the
generic validation errors for out-of-bounds price or stock input; only the
message text distinguishes the cases. -/
theorem c5_amended_subtract_error_is_badRequest (s : DataService.DataState)
    (now : Nat) (nowIso id : String) (q : ℚ) (p : Product)
    (hfind : (DataService.getAllProducts s now).1.find? (fun x => x.id = id) = some p)
    (hneg : p.stock - q < 0) :
    (ProductService.updateProductStock s now nowIso id q
        ProductService.StockOp.subtract).1 =
      Except.error (ApiErr.badRequest "Estoque não pode ficar negativo") ∧
    (ApiErr.badRequest "Estoque não pode ficar negativo").errorCode = "BAD_REQUEST" ∧
    (ApiErr.badRequest "Estoque não pode ficar negativo").statusCode = 400 ∧
    (∀ price e, ProductService.validateProductPrice price = Except.error e →
      e.errorCode = "BAD_REQUEST" ∧ e.statusCode = 400) ∧
    (∀ st e, ProductService.validateProductStock st = Except.error e →
      e.errorCode = "BAD_REQUEST" ∧ e.statusCode = 400) := by
  refine ⟨by rw [updateProductStock_subtract_neg_eq s now nowIso id q p hfind hneg],
    rfl, rfl, ?_, ?_⟩
  · intro price e he
    unfold ProductService.validateProductPrice at he
    split at he
    · cases he; exact ⟨rfl, rfl⟩
    · split at he
      · cases he; exact ⟨rfl, rfl⟩
      · cases he
  · intro st e he
    unfold ProductService.validateProductStock at he
    split at he
    · cases he; exact ⟨rfl, rfl⟩
    · split at he
      · cases he; exact ⟨rfl, rfl⟩
      · cases he

/-- C5 witness: the concrete stock-50 product with a subtract of 100. -/
theorem c5_amended_subtract_error_is_badRequest_witness :
    (DataService.getAllProducts stockState 0).1.find? (fun x => x.id = "p1") =
      some stockProduct ∧
    stockProduct.stock - 100 < 0 ∧
    (ProductService.updateProductStock stockState 0 "t" "p1" 100
        ProductService.StockOp.subtract).1 =
      Except.error (ApiErr.badRequest "Estoque não pode ficar negativo") :=
  ⟨by decide, by norm_num [stockProduct, demoProduct],
   (c5_amended_subtract_error_is_badRequest stockState 0 "t" "p1" 100 stockProduct
     (by decide) (by norm_num [stockProduct, demoProduct])).1⟩

/-! Fixtures for the name-uniqueness claim. -/

/-- Two demo products with distinct names. -/
def alphaProduct : Product := demoProduct "p1" "Alpha" 10 5

/-- Second demo product. -/
def betaProduct : Product := demoProduct "p2" "Beta" 20 3

/-- A state holding `alphaProduct` and `betaProduct`. -/
def twoState : DataService.DataState := demoState [alphaProduct, betaProduct]

/-- A create input named `ALPHA` (clashing case-insensitively with
`Alpha`). -/
def clashingCreate : ProductService.CreateProduct :=
  { name := "ALPHA"
    description := "d"
    price := 5
    category := "c"
    stock := 1
    imageUrl := Option.none
    tags := Option.none
    isActive := Option.none }

/-- C6: name uniqueness is case-insensitive — creating with a name matching
an existing product's name case-insensitively fails with CONFLICT; updating
a product's name to another product's name fails with CONFLICT; updating a
product's name to its own unchanged value (when no other product carries
it) succeeds. -/
theorem c6_name_uniqueness (s : DataService.DataState) (now : Nat)
    (nowIso freshId : String) :
    (∀ data : ProductService.CreateProduct,
      (∃ p ∈ (DataService.getAllProducts s now).1,
        toLowerStr p.name = toLowerStr data.name) →
      (ProductService.createProduct s now nowIso freshId data).1 =
        Except.error (ApiErr.conflict "Já existe um produto com este nome")) ∧
    (∀ (id : String) (u : DataService.ProductUpdates) (n : String),
      u.name = some n →
      (∃ q ∈ (DataService.getAllProducts s now).1, q.id = id) →
      (∃ p ∈ (DataService.getAllProducts s now).1,
        p.id ≠ id ∧ toLowerStr p.name = toLowerStr n) →
      (ProductService.updateProduct s now nowIso id u).1 =
        Except.error (ApiErr.conflict "Já existe um produto com este nome")) ∧
    (∀ (id : String) (q : Product) (n : String),
      (DataService.getAllProducts s now).1.find? (fun x => x.id = id) = some q →
      toLowerStr n = toLowerStr q.name →
      (∀ p ∈ (DataService.getAllProducts s now).1,
        p.id ≠ id → toLowerStr p.name ≠ toLowerStr n) →
      ∃ p', (ProductService.updateProduct s now nowIso id
        { DataService.ProductUpdates.none with name := some n }).1 =
          Except.ok p') := by
  have hstable := getAllProducts_stable s now
  refine ⟨?_, ?_, ?_⟩
  · intro data hex
    have hsome : ((DataService.getAllProducts s now).1.find? (fun p =>
        toLowerStr p.name = toLowerStr data.name &&
          (match (Option.none : Option String) with
           | some e => p.id ≠ e | Option.none => true))).isSome = true := by
      refine List.find?_isSome.mpr ?_
      obtain ⟨p, hp, hname⟩ := hex
      exact ⟨p, hp, by simp [hname]⟩
    obtain ⟨d, hd⟩ := Option.isSome_iff_exists.mp hsome
    unfold ProductService.createProduct ProductService.validateProductName
    simp only [hd]
  · intro id u n hn hqex hpex
    have hqsome : ((DataService.getAllProducts s now).1.find?
        (fun x => x.id = id)).isSome = true := by
      refine List.find?_isSome.mpr ?_
      obtain ⟨q, hq, hid⟩ := hqex
      exact ⟨q, hq, by simp [hid]⟩
    obtain ⟨q0, hq0⟩ := Option.isSome_iff_exists.mp hqsome
    unfold ProductService.updateProduct ProductService.getProductById
      DataService.getProductById
    simp only [hq0, hn]
    have hlist1 : (DataService.getAllProducts
        (DataService.getAllProducts s now).2 now).1 =
        (DataService.getAllProducts s now).1 := by rw [hstable]
    have hdsome : ((DataService.getAllProducts
        (DataService.getAllProducts s now).2 now).1.find? (fun p =>
          toLowerStr p.name = toLowerStr n &&
            (match (some id : Option String) with
             | some e => p.id ≠ e | Option.none => true))).isSome = true := by
      rw [hlist1]
      refine List.find?_isSome.mpr ?_
      obtain ⟨p, hp, hpid, hpname⟩ := hpex
      exact ⟨p, hp, by simp [hpname, hpid]⟩
    obtain ⟨d, hd⟩ := Option.isSome_iff_exists.mp hdsome
    unfold ProductService.validateProductName
    simp only [hd]
  · intro id q n hfind hown hnodup
    unfold ProductService.updateProduct ProductService.getProductById
      DataService.getProductById
    simp only [hfind]
    have hlist1 : (DataService.getAllProducts
        (DataService.getAllProducts s now).2 now).1 =
        (DataService.getAllProducts s now).1 := by rw [hstable]
    have hstate1 : (DataService.getAllProducts
        (DataService.getAllProducts s now).2 now).2 =
        (DataService.getAllProducts s now).2 := by rw [hstable]
    have hnone : (DataService.getAllProducts
        (DataService.getAllProducts s now).2 now).1.find? (fun p =>
          toLowerStr p.name = toLowerStr n &&
            (match (some id : Option String) with
             | some e => p.id ≠ e | Option.none => true)) = Option.none := by
      rw [hlist1]
      refine List.find?_eq_none.mpr ?_
      intro p hp
      simp only [Bool.not_eq_true, Bool.and_eq_false_iff]
      by_cases hpid : p.id = id
      · right; simp [hpid]
      · left
        simp only [decide_eq_false_iff_not]
        exact hnodup p hp hpid
    unfold ProductService.validateProductName
    simp only [hnone]
    have hidx : ∃ i, (DataService.getAllProducts
        (DataService.getAllProducts s now).2 now).1.findIdx?
          (fun p => p.id = id) = some i := by
      rw [hlist1]
      rcases hi : (DataService.getAllProducts s now).1.findIdx?
          (fun p => p.id = id) with _ | i
      · exfalso
        have hall := List.findIdx?_eq_none_iff.mp hi
        have hqmem := List.mem_of_find?_eq_some hfind
        have hqp := List.find?_some hfind
        have := hall q hqmem
        rw [this] at hqp
        exact Bool.false_ne_true hqp
      · exact ⟨i, hi⟩
    obtain ⟨i, hi⟩ := hidx
    unfold DataService.updateProduct
    rw [hstate1]
    simp only [hi]
    exact ⟨_, rfl⟩

/-- C6 witness: `Alpha`/`Beta` collection — creating `ALPHA` conflicts;
renaming `p2` to `alpha` conflicts; renaming `p1` to `ALPHA` (its own name,
case-insensitively) succeeds. -/
theorem c6_name_uniqueness_witness :
    ((∃ p ∈ (DataService.getAllProducts twoState 0).1,
        toLowerStr p.name = toLowerStr clashingCreate.name) ∧
      (ProductService.createProduct twoState 0 "t" "new" clashingCreate).1 =
        Except.error (ApiErr.conflict "Já existe um produto com este nome")) ∧
    ((ProductService.updateProduct twoState 0 "t" "p2"
        { DataService.ProductUpdates.none with name := some "alpha" }).1 =
      Except.error (ApiErr.conflict "Já existe um produto com este nome")) ∧
    (∃ p', (ProductService.updateProduct twoState 0 "t" "p1"
        { DataService.ProductUpdates.none with name := some "ALPHA" }).1 =
      Except.ok p') := by
  obtain ⟨h1, h2, h3⟩ := c6_name_uniqueness twoState 0 "t" "new"
  refine ⟨⟨?_, ?_⟩, ?_, ?_⟩
  · exact ⟨alphaProduct, by decide, by decide⟩
  · exact h1 clashingCreate ⟨alphaProduct, by decide, by decide⟩
  · exact h2 "p2" { DataService.ProductUpdates.none with name := some "alpha" }
      "alpha" rfl ⟨betaProduct, by decide, by decide⟩
      ⟨alphaProduct, by decide, by decide, by decide⟩
  · exact h3 "p1" alphaProduct "ALPHA" (by decide) (by decide)
      (by decide)

/-- Sorting a list (or skipping the sort) never changes its length. -/
theorem applySort_length (localeCmp : String → String → Int)
    (dateVal : String → Int) (f : DataService.SearchFilters)
    (l : List Product) :
    (DataService.applySort localeCmp dateVal f l).length = l.length := by
  unfold DataService.applySort
  cases f.sortBy <;> simp [List.length_mergeSort]

/-- Twelve demo products with ids and names "0" … "11". -/
def twelveProducts : List Product :=
  (List.range 12).map (fun i => demoProduct (toString i) (toString i) 1 1)

/-- A state holding the twelve demo products. -/
def twelveState : DataService.DataState := demoState twelveProducts

/-- The pagination filter: page `p`, limit `l`, nothing else. -/
def pageFilter (p l : Nat) : DataService.SearchFilters :=
  { DataService.SearchFilters.none with page := some p, limit := some l }

/-- C7: `searchProducts` computes `total` as the count after filtering and
before pagination, and when `page ≥ 1` and `limit ≥ 1` are given it returns
the slice `[(page-1)*limit, (page-1)*limit+limit)` of the filtered (and
possibly sorted) sequence; an out-of-range slice yields `[]`, not an
error. -/
theorem c7_search_pagination (localeCmp : String → String → Int)
    (dateVal : String → Int) (s : DataService.DataState) (now : Nat)
    (f : DataService.SearchFilters) (page limit : Nat)
    (hp : f.page = some page) (hl : f.limit = some limit)
    (hp1 : 1 ≤ page) (hl1 : 1 ≤ limit) :
    (DataService.searchProducts localeCmp dateVal s now f).1.2 =
      (DataService.applyFilters f (DataService.getAllProducts s now).1).length ∧
    (DataService.searchProducts localeCmp dateVal s now f).1.1 =
      ((DataService.applySort localeCmp dateVal f
          (DataService.applyFilters f (DataService.getAllProducts s now).1)).drop
        ((page - 1) * limit)).take limit ∧
    ((DataService.applyFilters f (DataService.getAllProducts s now).1).length ≤
        (page - 1) * limit →
      (DataService.searchProducts localeCmp dateVal s now f).1.1 = []) := by
  have hguard : page ≠ 0 ∧ limit ≠ 0 := ⟨by omega, by omega⟩
  have heq : DataService.searchProducts localeCmp dateVal s now f =
      ((((DataService.applySort localeCmp dateVal f
            (DataService.applyFilters f (DataService.getAllProducts s now).1)).drop
          ((page - 1) * limit)).take limit,
        (DataService.applySort localeCmp dateVal f
          (DataService.applyFilters f (DataService.getAllProducts s now).1)).length),
       (DataService.getAllProducts s now).2) := by
    unfold DataService.searchProducts
    simp only [hp, hl]
    rw [if_pos hguard]
  refine ⟨?_, ?_, ?_⟩
  · rw [heq]
    exact applySort_length localeCmp dateVal f _
  · rw [heq]
  · intro hle
    rw [heq]
    simp only
    have hlen : (DataService.applySort localeCmp dateVal f
        (DataService.applyFilters f (DataService.getAllProducts s now).1)).length ≤
        (page - 1) * limit := by
      rw [applySort_length]; exact hle
    rw [List.drop_eq_nil_of_le hlen, List.take_nil]

/-- C7 witness: a 12-item collection with `page 2, limit 5` yields the five
items at positions 6–10 and `total = 12`; `page 3, limit 5` yields the
remaining two. -/
theorem c7_search_pagination_witness :
    ((pageFilter 2 5).page = some 2 ∧ (pageFilter 2 5).limit = some 5 ∧
      (1:Nat) ≤ 2 ∧ (1:Nat) ≤ 5) ∧
    ((DataService.searchProducts (fun _ _ => 0) (fun _ => 0) twelveState 0
        (pageFilter 2 5)).1.2 =
      (DataService.applyFilters (pageFilter 2 5)
        (DataService.getAllProducts twelveState 0).1).length ∧
     (DataService.searchProducts (fun _ _ => 0) (fun _ => 0) twelveState 0
        (pageFilter 2 5)).1.1 =
      ((DataService.applySort (fun _ _ => 0) (fun _ => 0) (pageFilter 2 5)
          (DataService.applyFilters (pageFilter 2 5)
            (DataService.getAllProducts twelveState 0).1)).drop 5).take 5 ∧
     ((DataService.applyFilters (pageFilter 2 5)
          (DataService.getAllProducts twelveState 0).1).length ≤ 5 →
       (DataService.searchProducts (fun _ _ => 0) (fun _ => 0) twelveState 0
          (pageFilter 2 5)).1.1 = [])) ∧
    (DataService.searchProducts (fun _ _ => 0) (fun _ => 0) twelveState 0
        (pageFilter 2 5)).1.2 = 12 ∧
    (DataService.searchProducts (fun _ _ => 0) (fun _ => 0) twelveState 0
        (pageFilter 2 5)).1.1 =
      [demoProduct "5" "5" 1 1, demoProduct "6" "6" 1 1, demoProduct "7" "7" 1 1,
       demoProduct "8" "8" 1 1, demoProduct "9" "9" 1 1] ∧
    (DataService.searchProducts (fun _ _ => 0) (fun _ => 0) twelveState 0
        (pageFilter 3 5)).1.1 =
      [demoProduct "10" "10" 1 1, demoProduct "11" "11" 1 1] :=
  ⟨⟨rfl, rfl, by omega, by omega⟩,
   c7_search_pagination (fun _ _ => 0) (fun _ => 0) twelveState 0
     (pageFilter 2 5) 2 5 rfl rfl (by omega) (by omega),
   by decide, by decide, by decide⟩

/-- C8: every product a successful create returns has non-negative stock,
a price strictly between 0 and 999999.99 inclusive, the freshly supplied
id — distinct from every pre-existing id in the collection — both
timestamps stamped to the current instant, and `isActive = true` and
`tags = []` whenever those fields were absent from the input. -/
theorem c8_create_result_properties (s : DataService.DataState) (now : Nat)
    (nowIso freshId : String) (data : ProductService.CreateProduct) (p : Product)
    (hok : (ProductService.createProduct s now nowIso freshId data).1 =
      Except.ok p) :
    0 ≤ p.stock ∧ 0 < p.price ∧ p.price ≤ 999999.99 ∧
    p.id = freshId ∧
    (∀ q ∈ (DataService.getAllProducts s now).1, q.id ≠ p.id) ∧
    p.createdAt = nowIso ∧ p.updatedAt = nowIso ∧
    (data.isActive = Option.none → p.isActive = true) ∧
    (data.tags = Option.none → p.tags = []) := by
  have hstable := getAllProducts_stable s now
  unfold ProductService.createProduct ProductService.validateProductName at hok
  simp only [Bool.and_true] at hok
  rcases hdup : (DataService.getAllProducts s now).1.find? (fun q =>
      toLowerStr q.name = toLowerStr data.name) with _ | d
  case some => simp [hdup] at hok
  simp only [hdup] at hok
  by_cases hpr1 : data.price ≤ 0
  · unfold ProductService.validateProductPrice at hok
    rw [if_pos hpr1] at hok
    simp at hok
  unfold ProductService.validateProductPrice at hok
  rw [if_neg hpr1] at hok
  by_cases hpr2 : data.price > 999999.99
  · rw [if_pos hpr2] at hok
    simp at hok
  rw [if_neg hpr2] at hok
  by_cases hst1 : data.stock < 0
  · unfold ProductService.validateProductStock at hok
    rw [if_pos hst1] at hok
    simp at hok
  unfold ProductService.validateProductStock at hok
  rw [if_neg hst1] at hok
  by_cases hst2 : data.stock.den ≠ 1
  · rw [if_pos hst2] at hok
    simp at hok
  rw [if_neg hst2] at hok
  simp only at hok
  unfold DataService.createProduct at hok
  rw [hstable] at hok
  rcases hex : (DataService.getAllProducts s now).1.find?
      (fun q => q.id = freshId) with _ | q
  · simp only [hex] at hok
    have hp := hok.symm
    injection hp with hp
    subst hp
    refine ⟨not_lt.mp hst1, not_le.mp hpr1, not_lt.mp hpr2, rfl, ?_, rfl, rfl, ?_, ?_⟩
    · intro q hq
      have := List.find?_eq_none.mp hex q hq
      simpa using this
    · intro h; rw [h]; rfl
    · intro h; rw [h]; rfl
  · simp only [hex] at hok
    simp at hok

/-- An empty-collection state. -/
def emptyState : DataService.DataState := demoState []

/-- A valid create input with `tags` and `isActive` absent. -/
def okCreate : ProductService.CreateProduct :=
  { name := "Gamma"
    description := "d"
    price := 5
    category := "c"
    stock := 1
    imageUrl := Option.none
    tags := Option.none
    isActive := Option.none }

/-- The product the create above returns. -/
def okProduct : Product :=
  { id := "id9"
    name := "Gamma"
    description := "d"
    price := 5
    category := "c"
    stock := 1
    imageUrl := Option.none
    tags := []
    isActive := true
    createdAt := "t"
    updatedAt := "t" }

/-- C8 witness: creating `okCreate` in an empty collection succeeds and the
returned record has all the claimed properties. -/
theorem c8_create_result_properties_witness :
    (ProductService.createProduct emptyState 0 "t" "id9" okCreate).1 =
      Except.ok okProduct ∧
    (0 ≤ okProduct.stock ∧ 0 < okProduct.price ∧ okProduct.price ≤ 999999.99 ∧
     okProduct.id = "id9" ∧
     (∀ q ∈ (DataService.getAllProducts emptyState 0).1, q.id ≠ okProduct.id) ∧
     okProduct.createdAt = "t" ∧ okProduct.updatedAt = "t" ∧
     (okCreate.isActive = Option.none → okProduct.isActive = true) ∧
     (okCreate.tags = Option.none → okProduct.tags = [])) := by
  have hread : DataService.getAllProducts emptyState 0 =
      ([], { primary := FileContent.goodData []
             backup := FileContent.missing
             cache := some []
             cacheTimestamp := 0 }) := by decide
  have hok : (ProductService.createProduct emptyState 0 "t" "id9" okCreate).1 =
      Except.ok okProduct := by
    unfold ProductService.createProduct ProductService.validateProductName
    rw [hread]
    simp only [List.find?_nil]
    have h5 : ProductService.validateProductPrice (5 : ℚ) = Except.ok () := by
      unfold ProductService.validateProductPrice
      rw [if_neg (by norm_num), if_neg (by norm_num)]
    have h1 : ProductService.validateProductStock (1 : ℚ) = Except.ok () := by
      unfold ProductService.validateProductStock
      rw [if_neg (by norm_num), if_neg (by norm_num [Rat.den_ofNat])]
    simp only [okCreate, h5, h1]
    unfold DataService.createProduct
    have hread2 : DataService.getAllProducts
        { primary := FileContent.goodData []
          backup := FileContent.missing
          cache := some []
          cacheTimestamp := 0 } 0 =
        ([], { primary := FileContent.goodData []
               backup := FileContent.missing
               cache := some []
               cacheTimestamp := 0 }) := by decide
    rw [hread2]
    simp only [List.find?_nil]
    rfl
  exact ⟨hok,
    c8_create_result_properties emptyState 0 "t" "id9" okCreate okProduct hok⟩

/-- Three demo products priced 10, 20 and 30. -/
def threeProducts : List Product :=
  [demoProduct "a" "A" 10 1, demoProduct "b" "B" 20 1, demoProduct "c" "C" 30 1]

/-- C9: `getStatistics` returns `averagePrice` equal to the mean price over
all records — active and inactive alike — rounded to 2 decimal places
(`Math.round` is round-half-up), and 0 for an empty collection; on the
three products priced 10, 20, 30 it returns exactly 20. -/
theorem c9_statistics_average_price :
    (∀ (s : DataService.DataState) (now : Nat),
      (DataService.getStatistics s now).1.averagePrice =
        (if (DataService.getAllProducts s now).1 = [] then 0
         else (round ((((DataService.getAllProducts s now).1.map Product.price).sum /
            (((DataService.getAllProducts s now).1.length : ℚ))) * 100) : ℚ) / 100)) ∧
    (DataService.getStatistics (demoState threeProducts) 0).1.averagePrice = 20 := by
  have hfold : ∀ ps : List Product,
      ps.foldl (fun sum product => sum + product.price) 0 =
        (ps.map Product.price).sum := by
    intro ps
    rw [List.sum_eq_foldl, List.foldl_map]
  constructor
  · intro s now
    unfold DataService.getStatistics
    simp only [hfold]
    rcases hps : (DataService.getAllProducts s now).1 with _ | ⟨p, t⟩
    · simp
    · simp
  · have hread : DataService.getAllProducts (demoState threeProducts) 0 =
        (threeProducts,
         { primary := FileContent.goodData threeProducts
           backup := FileContent.missing
           cache := some threeProducts
           cacheTimestamp := 0 }) := by decide
    unfold DataService.getStatistics
    rw [hread]
    simp only [hfold, threeProducts, demoProduct, List.map_cons, List.map_nil,
      List.sum_cons, List.sum_nil, List.length_cons, List.length_nil]
    norm_num [round_eq]

/-! Fixtures for the aliasing claim. -/

/-- First aliasing-demo product. -/
def aliasProductA : Product := demoProduct "x1" "X1" 1 1

/-- Second aliasing-demo product. -/
def aliasProductB : Product := demoProduct "x2" "X2" 2 2

/-- A reference-level state with an empty cache and a primary file holding
one product. -/
def aliasState0 : Alias.AState :=
  { heap := []
    cacheAid := Option.none
    cacheTimestamp := 0
    primary := FileContent.goodData [aliasProductA]
    backup := FileContent.missing }

/-- C10 counterexample: a cache-missing `getAllProducts` returns the very
array it installs as the cache; a caller pushing onto that array changes
the cached state, and an immediately following cache-hit read observes the
mutated collection instead of the stored one. -/
theorem c10_alias_counterexample :
    ((Alias.getAllProductsA aliasState0 0).1 =
      (Alias.getAllProductsA aliasState0 0).2.cacheAid.getD 0) ∧
    (Alias.readArr
        (Alias.getAllProductsA
          (Alias.pushA (Alias.getAllProductsA aliasState0 0).2
            (Alias.getAllProductsA aliasState0 0).1 aliasProductB) 0).2.heap
        (Alias.getAllProductsA
          (Alias.pushA (Alias.getAllProductsA aliasState0 0).2
            (Alias.getAllProductsA aliasState0 0).1 aliasProductB) 0).1 =
      [aliasProductA, aliasProductB]) ∧
    (Alias.readArr
        (Alias.getAllProductsA
          (Alias.pushA (Alias.getAllProductsA aliasState0 0).2
            (Alias.getAllProductsA aliasState0 0).1 aliasProductB) 0).2.heap
        (Alias.getAllProductsA
          (Alias.pushA (Alias.getAllProductsA aliasState0 0).2
            (Alias.getAllProductsA aliasState0 0).1 aliasProductB) 0).1 ≠
      [aliasProductA]) := by decide

/-- C10 (amended): a read served from a valid cache returns a freshly
allocated copy, distinct from the cache array, and mutating the returned
array leaves the cached array unchanged; but a read that misses the cache
and parses the primary file returns an alias of the array it installs as
the cache, so caller mutations on such a returned array do change the
cached state observed by later reads. -/
theorem c10_amended_alias (s : Alias.AState) (now : Nat) (aid0 : Nat)
    (hca : s.cacheAid = some aid0) (hwf : aid0 < s.heap.length) :
    (Alias.isCacheValidA s now = true →
      (Alias.getAllProductsA s now).1 = s.heap.length ∧
      (Alias.getAllProductsA s now).2.cacheAid = some aid0 ∧
      (Alias.getAllProductsA s now).1 ≠ aid0 ∧
      ∀ p : Product,
        Alias.readArr (Alias.pushA (Alias.getAllProductsA s now).2
            (Alias.getAllProductsA s now).1 p).heap aid0 =
          Alias.readArr (Alias.getAllProductsA s now).2.heap aid0) ∧
    (Alias.isCacheValidA s now = false →
      ∀ ps : List Product, s.primary = FileContent.goodData ps →
        (Alias.getAllProductsA s now).1 =
          (Alias.getAllProductsA s now).2.cacheAid.getD 0) := by
  constructor
  · intro hvalid
    unfold Alias.getAllProductsA
    rw [hvalid]
    simp only [if_true, Alias.alloc]
    refine ⟨by trivial, hca, by omega, ?_⟩
    intro p
    unfold Alias.pushA Alias.readArr
    simp only [List.getD_eq_getElem?_getD]
    rw [List.getElem?_set_ne (by omega)]
  · intro hinvalid ps hps
    unfold Alias.getAllProductsA
    rw [hinvalid]
    simp only [Bool.false_eq_true, if_false]
    unfold Alias.readFromFileA
    rw [hps]
    simp [Alias.alloc]

/-- C10 witness: a concrete valid-cache state for the amended theorem. -/
theorem c10_amended_alias_witness :
    ({ heap := [[aliasProductA]]
       cacheAid := some 0
       cacheTimestamp := 0
       primary := FileContent.goodData [aliasProductA]
       backup := FileContent.missing } : Alias.AState).cacheAid = some 0 ∧
    (0 : Nat) < 1 ∧
    (Alias.isCacheValidA
        { heap := [[aliasProductA]]
          cacheAid := some 0
          cacheTimestamp := 0
          primary := FileContent.goodData [aliasProductA]
          backup := FileContent.missing } 0 = true →
      (Alias.getAllProductsA
          { heap := [[aliasProductA]]
            cacheAid := some 0
            cacheTimestamp := 0
            primary := FileContent.goodData [aliasProductA]
            backup := FileContent.missing } 0).1 = 1 ∧
      (Alias.getAllProductsA
          { heap := [[aliasProductA]]
            cacheAid := some 0
            cacheTimestamp := 0
            primary := FileContent.goodData [aliasProductA]
            backup := FileContent.missing } 0).2.cacheAid = some 0 ∧
      (Alias.getAllProductsA
          { heap := [[aliasProductA]]
            cacheAid := some 0
            cacheTimestamp := 0
            primary := FileContent.goodData [aliasProductA]
            backup := FileContent.missing } 0).1 ≠ 0 ∧
      ∀ p : Product,
        Alias.readArr (Alias.pushA
            (Alias.getAllProductsA
              { heap := [[aliasProductA]]
                cacheAid := some 0
                cacheTimestamp := 0
                primary := FileContent.goodData [aliasProductA]
                backup := FileContent.missing } 0).2
            (Alias.getAllProductsA
              { heap := [[aliasProductA]]
                cacheAid := some 0
                cacheTimestamp := 0
                primary := FileContent.goodData [aliasProductA]
                backup := FileContent.missing } 0).1 p).heap 0 =
          Alias.readArr (Alias.getAllProductsA
              { heap := [[aliasProductA]]
                cacheAid := some 0
                cacheTimestamp := 0
                primary := FileContent.goodData [aliasProductA]
                backup := FileContent.missing } 0).2.heap 0) :=
  ⟨rfl, by omega,
   (c10_amended_alias
     { heap := [[aliasProductA]]
       cacheAid := some 0
       cacheTimestamp := 0
       primary := FileContent.goodData [aliasProductA]
       backup := FileContent.missing } 0 0 rfl (by decide)).1⟩

end ML
